import Mathlib

/-!
# Orbital-mechanics conversion utilities: a shallow embedding

This file embeds the two Python source files of the repository
(`Guía 1 - Ejercicio 7.py`, strict/ellipse-only variant, namespace `Ej7`;
`Guía 1 - Ejercicio 8.py`, general-conic variant, namespace `Ej8`).

Modelling choices:
* Python floats are modelled as real numbers `ℝ`; `np.sqrt` is `Real.sqrt`
  (which returns `0` on negative arguments, standing in for NumPy's `nan`).
* `raise ValueError(msg)` is modelled as returning `Except.error msg`;
  a normal `return (x, y)` is `Except.ok (x, y)`.
* Local variables of the Python bodies (`epsilon`, `h`, `a`, `e2`) are
  inlined, which is semantically identical for this straight-line code.
* Of `plot_orbit` we embed the computational part relevant to the
  sampled trajectory: the true-anomaly grid produced by `np.linspace`
  and the polar-radius formula.  The matplotlib rendering calls are side
  effects outside the embedding.
-/

namespace Orbital

/-- `true` iff the modelled Python call raised (any) `ValueError`. -/
def isError {α : Type} : Except String α → Bool
  | .error _ => true
  | .ok _ => false

/-- The returned pair of a successful call (junk value `(0, 0)` on error;
used only to state facts about calls already known to succeed). -/
def okPair (r : Except String (ℝ × ℝ)) : ℝ × ℝ :=
  match r with
  | .ok p => p
  | .error _ => (0, 0)

/-- `np.linspace lo hi n` as a function of the sample index `i < n`:
`n` evenly spaced points from `lo` to `hi`, endpoints included. -/
noncomputable def linspace (lo hi : ℝ) (n i : ℕ) : ℝ :=
  lo + (hi - lo) * (i : ℝ) / ((n - 1 : ℕ) : ℝ)

namespace Ej7

/-- `ae2Eh` of `Guía 1 - Ejercicio 7.py` (strict, ellipse-only):
rejects `a <= 0` and `e` outside `[0, 1)`, else returns
`(-mu/(2a), sqrt(mu*a*(1-e^2)))`. -/
noncomputable def ae2Eh (a e mu : ℝ) : Except String (ℝ × ℝ) :=
  if a ≤ 0 then .error "El semi-eje mayor debe ser positivo."
  else if ¬ (0 ≤ e ∧ e < 1) then
    .error "La excentricidad debe estar entre 0 (incluido) y 1 (excluido)."
  else .ok (-mu / (2 * a), Real.sqrt (mu * a * (1 - e ^ 2)))

/-- `Eh2ae` of `Guía 1 - Ejercicio 7.py` (strict, ellipse-only):
rejects `epsilon >= 0`, then `h <= 0`, then a negative discriminant
`e2 = 1 - h^2/(mu*a)` with `a = -mu/(2*epsilon)`; else returns
`(a, sqrt(e2))`. -/
noncomputable def Eh2ae (epsilon h mu : ℝ) : Except String (ℝ × ℝ) :=
  if 0 ≤ epsilon then .error "La energia debe ser negativa para orbitas elipticas."
  else if h ≤ 0 then .error "El momento angular debe ser positivo."
  else if 1 - h ^ 2 / (mu * (-mu / (2 * epsilon))) < 0 then
    .error "Los valores no representan una orbita eliptica valida."
  else .ok (-mu / (2 * epsilon),
            Real.sqrt (1 - h ^ 2 / (mu * (-mu / (2 * epsilon)))))

/-- The true-anomaly sample grid of `plot_orbit` in
`Guía 1 - Ejercicio 7.py`: `np.linspace(0, 2*np.pi, 600)`. -/
noncomputable def plotTheta (i : ℕ) : ℝ :=
  Orbital.linspace 0 (2 * Real.pi) 600 i

/-- The polar radius `r = p / (1 + e*cos θ)` with `p = a*(1 - e^2)`
computed by `plot_orbit` in `Guía 1 - Ejercicio 7.py`. -/
noncomputable def plotR (a e θ : ℝ) : ℝ :=
  a * (1 - e ^ 2) / (1 + e * Real.cos θ)

end Ej7

namespace Ej8

/-- `ae2Eh` of `Guía 1 - Ejercicio 8.py` (general conic):
rejects `e < 0`; special-cases `e == 1` (parabola, `a` read as the
semi-latus rectum, no further validation of `a`); then rejects an
`a`/`e` sign mismatch; else returns `(-mu/(2a), sqrt(mu*|a|*|1-e^2|))`. -/
noncomputable def ae2Eh (a e mu : ℝ) : Except String (ℝ × ℝ) :=
  if e < 0 then .error "La excentricidad no puede ser negativa."
  else if e = 1 then .ok (0, Real.sqrt (mu * a))
  else if (e < 1 ∧ a ≤ 0) ∨ (1 < e ∧ 0 ≤ a) then
    .error "La combinacion de a y e no representa una orbita valida."
  else .ok (-mu / (2 * a), Real.sqrt (mu * |a| * |1 - e ^ 2|))

/-- `Eh2ae` of `Guía 1 - Ejercicio 8.py` (general conic):
rejects `h <= 0`; special-cases `epsilon == 0` (parabola, returns
`(h^2/mu, 1)`); else computes `a = -mu/(2*epsilon)` (the Python source
branches on `epsilon > 0` but both branches compute this same formula),
rejects a negative discriminant, else returns `(a, sqrt(e2))`. -/
noncomputable def Eh2ae (epsilon h mu : ℝ) : Except String (ℝ × ℝ) :=
  if h ≤ 0 then .error "El momento angular debe ser positivo."
  else if epsilon = 0 then .ok (h ^ 2 / mu, 1)
  else if 1 - h ^ 2 / (mu * (-mu / (2 * epsilon))) < 0 then
    .error "Los valores no representan una orbita valida."
  else .ok (-mu / (2 * epsilon),
            Real.sqrt (1 - h ^ 2 / (mu * (-mu / (2 * epsilon)))))

/-- The true-anomaly sample grid of `plot_orbit` in
`Guía 1 - Ejercicio 8.py`: `np.linspace(-np.pi + 0.01, np.pi - 0.01, 600)`.
Note the grid is computed before any branch on `e`, so the same inset
open-interval grid is used for every conic, ellipses included. -/
noncomputable def plotTheta (i : ℕ) : ℝ :=
  Orbital.linspace (-Real.pi + 0.01) (Real.pi - 0.01) 600 i

end Ej8

/-! ## Helper lemmas -/

/-- Success case of the strict forward conversion. -/
theorem Ej7_ae2Eh_ok (a e mu : ℝ) (ha : 0 < a) (he0 : 0 ≤ e) (he1 : e < 1) :
    Ej7.ae2Eh a e mu = .ok (-mu / (2 * a), Real.sqrt (mu * a * (1 - e ^ 2))) := by
  unfold Ej7.ae2Eh
  rw [if_neg (not_le.mpr ha), if_neg (not_not_intro ⟨he0, he1⟩)]

/-- Parabolic case of the general forward conversion. -/
theorem Ej8_ae2Eh_parab (a mu : ℝ) :
    Ej8.ae2Eh a 1 mu = .ok (0, Real.sqrt (mu * a)) := by
  unfold Ej8.ae2Eh
  rw [if_neg (by norm_num : ¬ ((1 : ℝ) < 0)), if_pos rfl]

/-! ## Claims -/

/-- C2: the strict forward conversion `Ej7.ae2Eh` errors exactly when
`a ≤ 0` or `e` lies outside `[0, 1)` (in particular `e = 1` errors), and
otherwise returns `(-mu/(2a), √(mu·a·(1-e²)))`. -/
theorem claim_C2_strict_forward_contract : ∀ a e mu : ℝ,
    (isError (Ej7.ae2Eh a e mu) = true ↔ a ≤ 0 ∨ e < 0 ∨ 1 ≤ e) ∧
    (0 < a → 0 ≤ e → e < 1 →
      Ej7.ae2Eh a e mu = .ok (-mu / (2 * a), Real.sqrt (mu * a * (1 - e ^ 2)))) := by
  intro a e mu
  constructor
  · unfold Ej7.ae2Eh
    by_cases h1 : a ≤ 0
    · rw [if_pos h1]
      simp only [isError, true_iff]
      exact Or.inl h1
    · rw [if_neg h1]
      by_cases h2 : 0 ≤ e ∧ e < 1
      · rw [if_neg (not_not_intro h2)]
        simp only [isError, Bool.false_eq_true, false_iff]
        push_neg at h1
        push_neg
        exact ⟨h1, h2.1, h2.2⟩
      · rw [if_pos h2]
        simp only [isError, true_iff]
        push_neg at h2
        rcases lt_or_le e 0 with he | he
        · exact Or.inr (Or.inl he)
        · exact Or.inr (Or.inr (h2 he))
  · intro ha he0 he1
    exact Ej7_ae2Eh_ok a e mu ha he0 he1

/-- Witness for C2: `a = -1` is rejected; `a = 2, e = 0, mu = 1` gives the
stated pair. -/
theorem claim_C2_strict_forward_contract_witness :
    isError (Ej7.ae2Eh (-1) 0.5 1) = true ∧
    Ej7.ae2Eh 2 0 1 = .ok (-1 / (2 * 2), Real.sqrt (1 * 2 * (1 - 0 ^ 2))) :=
  ⟨(claim_C2_strict_forward_contract (-1) 0.5 1).1.mpr (Or.inl (by norm_num)),
   (claim_C2_strict_forward_contract 2 0 1).2 (by norm_num) (by norm_num) (by norm_num)⟩

/-- C4: for `a > 0`, `e ∈ [0,1)`, `mu > 0` the strict forward conversion
succeeds with `ε < 0` and `h > 0`; at the circular boundary `e = 0` the
result is exactly `(-mu/(2a), √(mu·a))`. -/
theorem claim_C4_strict_forward_postcondition (a e mu : ℝ)
    (ha : 0 < a) (he0 : 0 ≤ e) (he1 : e < 1) (hmu : 0 < mu) :
    (∃ eps h, Ej7.ae2Eh a e mu = .ok (eps, h) ∧ eps < 0 ∧ 0 < h) ∧
    Ej7.ae2Eh a 0 mu = .ok (-mu / (2 * a), Real.sqrt (mu * a)) := by
  have h2a : (0 : ℝ) < 2 * a := by linarith
  have he2 : 0 < 1 - e ^ 2 := by nlinarith
  constructor
  · refine ⟨-mu / (2 * a), Real.sqrt (mu * a * (1 - e ^ 2)),
      Ej7_ae2Eh_ok a e mu ha he0 he1, ?_, ?_⟩
    · exact div_neg_of_neg_of_pos (neg_lt_zero.mpr hmu) h2a
    · exact Real.sqrt_pos.mpr (mul_pos (mul_pos hmu ha) he2)
  · rw [Ej7_ae2Eh_ok a 0 mu ha le_rfl (by norm_num)]
    norm_num

/-- Witness for C4 at `a = 2, e = 1/2, mu = 3`. -/
theorem claim_C4_strict_forward_postcondition_witness :
    (∃ eps h, Ej7.ae2Eh 2 (1/2) 3 = .ok (eps, h) ∧ eps < 0 ∧ 0 < h) ∧
    Ej7.ae2Eh 2 0 3 = .ok (-3 / (2 * 2), Real.sqrt (3 * 2)) :=
  claim_C4_strict_forward_postcondition 2 (1/2) 3 (by norm_num) (by norm_num)
    (by norm_num) (by norm_num)

/-- C5: the general-conic forward conversion, at `e = 1`, returns
`ε = 0` and `h = √(mu·a)` with `a` read as the semi-latus rectum; in
particular at `a = p = 7000e3` it returns `(0, √(mu·7000000))` exactly,
for every `mu`. -/
theorem claim_C5_parabolic_forward : ∀ a mu : ℝ,
    Ej8.ae2Eh a 1 mu = .ok (0, Real.sqrt (mu * a)) ∧
    Ej8.ae2Eh 7000000 1 mu = .ok (0, Real.sqrt (mu * 7000000)) :=
  fun a mu => ⟨Ej8_ae2Eh_parab a mu, Ej8_ae2Eh_parab 7000000 mu⟩

/-- C6: a non-positive angular momentum is always rejected: for every
`eps`, `mu` and `h ≤ 0` both inverse conversions error (in the strict
variant the energy check fires first when `eps ≥ 0`, but the call still
errors). -/
theorem claim_C6_nonpositive_h_rejected (eps h mu : ℝ) (hh : h ≤ 0) :
    isError (Ej7.Eh2ae eps h mu) = true ∧ isError (Ej8.Eh2ae eps h mu) = true := by
  constructor
  · unfold Ej7.Eh2ae
    by_cases h1 : 0 ≤ eps
    · rw [if_pos h1]; rfl
    · rw [if_neg h1, if_pos hh]; rfl
  · unfold Ej8.Eh2ae
    rw [if_pos hh]; rfl

/-- Witness for C6 at `eps = 1 ≥ 0`, `h = 0`, `mu = 5`. -/
theorem claim_C6_nonpositive_h_rejected_witness :
    isError (Ej7.Eh2ae 1 0 5) = true ∧ isError (Ej8.Eh2ae 1 0 5) = true :=
  claim_C6_nonpositive_h_rejected 1 0 5 le_rfl

/-- C10: the parabolic branch of the general forward conversion performs
no validation of `a`: for `e = 1` and every `a` it returns without error;
for `mu > 0` and `a < 0` the radicand `mu·a` is negative, so the computed
`h = √(mu·a)` degenerates (to `0` in this real embedding, `nan` in NumPy). -/
theorem claim_C10_parabolic_branch_unvalidated : ∀ a mu : ℝ,
    isError (Ej8.ae2Eh a 1 mu) = false ∧
    (0 < mu → a < 0 → Ej8.ae2Eh a 1 mu = .ok (0, 0)) := by
  intro a mu
  constructor
  · rw [Ej8_ae2Eh_parab a mu]; rfl
  · intro hmu ha
    rw [Ej8_ae2Eh_parab a mu,
      Real.sqrt_eq_zero'.mpr (mul_neg_of_pos_of_neg hmu ha).le]

/-- Witness for C10 at `a = -1`, `mu = 1`. -/
theorem claim_C10_parabolic_branch_unvalidated_witness :
    isError (Ej8.ae2Eh (-1) 1 1) = false ∧ Ej8.ae2Eh (-1) 1 1 = .ok (0, 0) :=
  ⟨(claim_C10_parabolic_branch_unvalidated (-1) 1).1,
   (claim_C10_parabolic_branch_unvalidated (-1) 1).2 (by norm_num) (by norm_num)⟩

/-- C3: the general-conic forward conversion errors exactly when `e < 0`,
or `e < 1` with `a ≤ 0`, or `e > 1` with `a ≥ 0`; accepted non-parabolic
inputs yield `(-mu/(2a), √(mu·|a|·|1-e²|))`; `e = 1` bypasses the sign
check. -/
theorem claim_C3_general_forward_contract : ∀ a e mu : ℝ,
    (isError (Ej8.ae2Eh a e mu) = true ↔
      e < 0 ∨ (e < 1 ∧ a ≤ 0) ∨ (1 < e ∧ 0 ≤ a)) ∧
    (e ≠ 1 → ¬(e < 0 ∨ (e < 1 ∧ a ≤ 0) ∨ (1 < e ∧ 0 ≤ a)) →
      Ej8.ae2Eh a e mu = .ok (-mu / (2 * a), Real.sqrt (mu * |a| * |1 - e ^ 2|))) := by
  intro a e mu
  constructor
  · unfold Ej8.ae2Eh
    by_cases h1 : e < 0
    · rw [if_pos h1]
      simp only [isError, true_iff]
      exact Or.inl h1
    · rw [if_neg h1]
      by_cases h2 : e = 1
      · rw [if_pos h2]
        subst h2
        simp only [isError, Bool.false_eq_true, false_iff]
        norm_num
      · rw [if_neg h2]
        by_cases h3 : (e < 1 ∧ a ≤ 0) ∨ (1 < e ∧ 0 ≤ a)
        · rw [if_pos h3]
          simp only [isError, true_iff]
          exact Or.inr h3
        · rw [if_neg h3]
          simp only [isError, Bool.false_eq_true, false_iff]
          intro hor
          rcases hor with h | h
          · exact h1 h
          · exact h3 h
  · intro hne hnot
    push_neg at hnot
    unfold Ej8.ae2Eh
    have h3 : ¬((e < 1 ∧ a ≤ 0) ∨ (1 < e ∧ 0 ≤ a)) := by
      rintro (⟨he, ha⟩ | ⟨he, ha⟩)
      · exact absurd ha (not_le.mpr (hnot.2.1 he))
      · exact absurd ha (not_le.mpr (hnot.2.2 he))
    rw [if_neg (not_lt.mpr hnot.1), if_neg hne, if_neg h3]

/-- Witness for C3: `a = 1, e = 2` is rejected; the hyperbolic input
`a = -2, e = 2, mu = 1` yields the stated pair. -/
theorem claim_C3_general_forward_contract_witness :
    isError (Ej8.ae2Eh 1 2 1) = true ∧
    Ej8.ae2Eh (-2) 2 1 =
      .ok (-1 / (2 * (-2)), Real.sqrt (1 * |(-2 : ℝ)| * |1 - (2 : ℝ) ^ 2|)) :=
  ⟨(claim_C3_general_forward_contract 1 2 1).1.mpr
     (Or.inr (Or.inr ⟨by norm_num, by norm_num⟩)),
   (claim_C3_general_forward_contract (-2) 2 1).2 (by norm_num) (by norm_num)⟩

/-- C9: in the general-conic inverse conversion, for `mu > 0`, `eps > 0`,
`h > 0` the negative-discriminant branch is unreachable: the call always
succeeds with `a < 0` and `e > 1`. -/
theorem claim_C9_hyperbolic_inverse_total (eps h mu : ℝ)
    (heps : 0 < eps) (hh : 0 < h) (hmu : 0 < mu) :
    ∃ a e, Ej8.Eh2ae eps h mu = .ok (a, e) ∧ a < 0 ∧ 1 < e := by
  have h2e : (0 : ℝ) < 2 * eps := by linarith
  have hA : -mu / (2 * eps) < 0 := div_neg_of_neg_of_pos (neg_lt_zero.mpr hmu) h2e
  have hmua : mu * (-mu / (2 * eps)) < 0 := mul_neg_of_pos_of_neg hmu hA
  have hdiv : h ^ 2 / (mu * (-mu / (2 * eps))) < 0 :=
    div_neg_of_pos_of_neg (pow_pos hh 2) hmua
  have he2 : 1 < 1 - h ^ 2 / (mu * (-mu / (2 * eps))) := by linarith
  refine ⟨-mu / (2 * eps), Real.sqrt (1 - h ^ 2 / (mu * (-mu / (2 * eps)))),
    ?_, hA, ?_⟩
  · unfold Ej8.Eh2ae
    rw [if_neg (not_le.mpr hh), if_neg (ne_of_gt heps),
      if_neg (not_lt.mpr (by linarith))]
  · have hs := Real.sqrt_lt_sqrt (by norm_num : (0 : ℝ) ≤ 1) he2
    rwa [Real.sqrt_one] at hs

/-- Witness for C9 at `eps = h = mu = 1`. -/
theorem claim_C9_hyperbolic_inverse_total_witness :
    ∃ a e, Ej8.Eh2ae 1 1 1 = .ok (a, e) ∧ a < 0 ∧ 1 < e :=
  claim_C9_hyperbolic_inverse_total 1 1 1 (by norm_num) (by norm_num) (by norm_num)

/-- C1: round-trip of the strict variant, exact in real arithmetic: for
`a > 0`, `e ∈ [0,1)`, `mu > 0`, feeding the pair returned by
`Ej7.ae2Eh a e mu` into `Ej7.Eh2ae` (same `mu`) returns `(a, e)`. -/
theorem claim_C1_roundtrip (a e mu : ℝ) (ha : 0 < a) (he0 : 0 ≤ e)
    (he1 : e < 1) (hmu : 0 < mu) :
    (Ej7.ae2Eh a e mu).bind (fun p => Ej7.Eh2ae p.1 p.2 mu) = .ok (a, e) := by
  have hmu0 : mu ≠ 0 := ne_of_gt hmu
  have ha0 : a ≠ 0 := ne_of_gt ha
  have h2a : (0 : ℝ) < 2 * a := by linarith
  have hX : 0 < mu * a * (1 - e ^ 2) := mul_pos (mul_pos hmu ha) (by nlinarith)
  have heps : -mu / (2 * a) < 0 := div_neg_of_neg_of_pos (neg_lt_zero.mpr hmu) h2a
  rw [Ej7_ae2Eh_ok a e mu ha he0 he1]
  simp only [Except.bind]
  have hA : -mu / (2 * (-mu / (2 * a))) = a := by
    field_simp
    ring
  have hXsq : Real.sqrt (mu * a * (1 - e ^ 2)) ^ 2 = mu * a * (1 - e ^ 2) :=
    Real.sq_sqrt hX.le
  have he2 : 1 - Real.sqrt (mu * a * (1 - e ^ 2)) ^ 2 /
      (mu * (-mu / (2 * (-mu / (2 * a))))) = e ^ 2 := by
    rw [hXsq, hA]
    field_simp
  unfold Ej7.Eh2ae
  rw [if_neg (not_le.mpr heps), if_neg (not_le.mpr (Real.sqrt_pos.mpr hX))]
  rw [he2, if_neg (not_lt.mpr (sq_nonneg e)), hA, Real.sqrt_sq he0]

/-- Witness for C1 at `a = 2, e = 1/2, mu = 1`. -/
theorem claim_C1_roundtrip_witness :
    (Ej7.ae2Eh 2 (1/2) 1).bind (fun p => Ej7.Eh2ae p.1 p.2 1) = .ok (2, 1/2) :=
  claim_C1_roundtrip 2 (1/2) 1 (by norm_num) (by norm_num) (by norm_num) (by norm_num)

/-! ## The true-anomaly sample grids of `plot_orbit` -/

/-- The first `linspace` sample is the lower endpoint. -/
theorem linspace_first (lo hi : ℝ) (n : ℕ) : linspace lo hi n 0 = lo := by
  unfold linspace
  norm_num

/-- The last of 600 `linspace` samples is the upper endpoint. -/
theorem linspace_600_last (lo hi : ℝ) : linspace lo hi 600 599 = hi := by
  unfold linspace
  have h1 : ((600 - 1 : ℕ) : ℝ) = 599 := by norm_num
  rw [h1, mul_div_assoc]
  norm_num

/-- Every one of the 600 `linspace` samples lies between the endpoints. -/
theorem linspace_600_mem (lo hi : ℝ) (hlh : lo ≤ hi) (i : ℕ) (hi6 : i ≤ 599) :
    lo ≤ linspace lo hi 600 i ∧ linspace lo hi 600 i ≤ hi := by
  unfold linspace
  have h1 : ((600 - 1 : ℕ) : ℝ) = 599 := by norm_num
  rw [h1]
  have hic : (i : ℝ) ≤ 599 := by exact_mod_cast hi6
  have hi0 : (0 : ℝ) ≤ (i : ℝ) := Nat.cast_nonneg i
  constructor
  · have h0 : 0 ≤ (hi - lo) * (i : ℝ) / 599 :=
      div_nonneg (mul_nonneg (by linarith) hi0) (by norm_num)
    linarith
  · have h2 : (hi - lo) * (i : ℝ) / 599 ≤ hi - lo := by
      rw [div_le_iff₀ (by norm_num : (0 : ℝ) < 599)]
      have := mul_le_mul_of_nonneg_left hic (by linarith : (0 : ℝ) ≤ hi - lo)
      linarith
    linarith

/-- C7 counterexample: in the general-conic variant the very first
sampled true anomaly is negative (it is `-π + 0.01`), so for elliptical
inputs that variant does not sample the closed interval `[0, 2π]`
(its grid is independent of `e`). -/
theorem claim_C7_counterexample : Ej8.plotTheta 0 < 0 := by
  have hpi := Real.pi_gt_three
  have h := linspace_first (-Real.pi + 0.01) (Real.pi - 0.01) 600
  unfold Ej8.plotTheta
  rw [h]
  linarith

/-- C7 amended: the strict variant samples `θ` over the full closed
interval `[0, 2π]` (endpoints attained); the general variant samples `θ`
over the inset interval `[-π + 0.01, π - 0.01] ⊂ (-π, π)` for every
input regardless of eccentricity — ellipses included. -/
theorem claim_C7_theta_domains :
    Ej7.plotTheta 0 = 0 ∧
    Ej7.plotTheta 599 = 2 * Real.pi ∧
    (∀ i : ℕ, i ≤ 599 → 0 ≤ Ej7.plotTheta i ∧ Ej7.plotTheta i ≤ 2 * Real.pi) ∧
    Ej8.plotTheta 0 = -Real.pi + 0.01 ∧
    Ej8.plotTheta 599 = Real.pi - 0.01 ∧
    (∀ i : ℕ, i ≤ 599 → -Real.pi < Ej8.plotTheta i ∧ Ej8.plotTheta i < Real.pi) := by
  have hpi := Real.pi_gt_three
  refine ⟨?_, ?_, ?_, ?_, ?_, ?_⟩
  · exact linspace_first 0 (2 * Real.pi) 600
  · exact linspace_600_last 0 (2 * Real.pi)
  · intro i hi6
    exact linspace_600_mem 0 (2 * Real.pi) (by linarith) i hi6
  · exact linspace_first (-Real.pi + 0.01) (Real.pi - 0.01) 600
  · exact linspace_600_last (-Real.pi + 0.01) (Real.pi - 0.01)
  · intro i hi6
    have h := linspace_600_mem (-Real.pi + 0.01) (Real.pi - 0.01)
      (by linarith) i hi6
    exact ⟨lt_of_lt_of_le (by linarith) h.1, lt_of_le_of_lt h.2 (by linarith)⟩

/-- Witness for C7 (amended) at sample index `10`. -/
theorem claim_C7_theta_domains_witness :
    (0 ≤ Ej7.plotTheta 10 ∧ Ej7.plotTheta 10 ≤ 2 * Real.pi) ∧
    (-Real.pi < Ej8.plotTheta 10 ∧ Ej8.plotTheta 10 < Real.pi) :=
  ⟨claim_C7_theta_domains.2.2.1 10 (by norm_num),
   claim_C7_theta_domains.2.2.2.2.2 10 (by norm_num)⟩

/-! ## The regression fixture of `Ejercicio 7.py` (`__main__` demo run) -/

/-- Evaluation of the strict forward conversion at the fixture
`a = 1.5e7 m`, `e = 0.6`, `mu = 3.986e14 m³/s²`. -/
theorem fixture_eval :
    Ej7.ae2Eh 1.5e7 0.6 3.986e14 =
      .ok (-3.986e14 / (2 * 1.5e7),
           Real.sqrt (3.986e14 * 1.5e7 * (1 - (0.6 : ℝ) ^ 2))) :=
  Ej7_ae2Eh_ok _ _ _ (by norm_num) (by norm_num) (by norm_num)

/-- C8 counterexample: at the fixture the returned `h` lies strictly
between `6·10¹⁰` and `6.2·10¹⁰`, so it does not match the spec's quoted
`h ≈ 6.928e9` at any reasonable tolerance (it is off by a factor ≈ 8.9). -/
theorem claim_C8_counterexample :
    6 * 10 ^ 10 < (okPair (Ej7.ae2Eh 1.5e7 0.6 3.986e14)).2 ∧
    (okPair (Ej7.ae2Eh 1.5e7 0.6 3.986e14)).2 < 6.2 * 10 ^ 10 := by
  rw [fixture_eval]
  constructor
  · show (6 * 10 ^ 10 : ℝ) < Real.sqrt (3.986e14 * 1.5e7 * (1 - (0.6 : ℝ) ^ 2))
    rw [Real.lt_sqrt (by norm_num)]
    norm_num
  · show Real.sqrt (3.986e14 * 1.5e7 * (1 - (0.6 : ℝ) ^ 2)) < 6.2 * 10 ^ 10
    rw [Real.sqrt_lt' (by norm_num)]
    norm_num

/-- C8 amended: at the fixture `a = 1.5e7, e = 0.6, mu = 3.986e14` the
call succeeds; `ε ≈ -1.3287e7 J/kg` as the spec quotes (within half a
unit in the last quoted digit), but `h = √3.82656e21 ≈ 6.1859e10 m²/s`,
not the spec's `6.928e9`. -/
theorem claim_C8_regression_fixture :
    isError (Ej7.ae2Eh 1.5e7 0.6 3.986e14) = false ∧
    |(okPair (Ej7.ae2Eh 1.5e7 0.6 3.986e14)).1 - (-1.3287e7)| < 500 ∧
    6.1859e10 < (okPair (Ej7.ae2Eh 1.5e7 0.6 3.986e14)).2 ∧
    (okPair (Ej7.ae2Eh 1.5e7 0.6 3.986e14)).2 < 6.186e10 := by
  refine ⟨?_, ?_, ?_, ?_⟩
  · rw [fixture_eval]
    rfl
  · rw [fixture_eval]
    show |(-3.986e14 / (2 * 1.5e7) : ℝ) - (-1.3287e7)| < 500
    rw [abs_lt]
    constructor <;> norm_num
  · rw [fixture_eval]
    show (6.1859e10 : ℝ) < Real.sqrt (3.986e14 * 1.5e7 * (1 - (0.6 : ℝ) ^ 2))
    rw [Real.lt_sqrt (by norm_num)]
    norm_num
  · rw [fixture_eval]
    show Real.sqrt (3.986e14 * 1.5e7 * (1 - (0.6 : ℝ) ^ 2)) < 6.186e10
    rw [Real.sqrt_lt' (by norm_num)]
    norm_num

end Orbital
